import Mathlib

/-!
# zapper: a logging facade over zap

Shallow embedding of `zapper.go` and `grpc/grpc_logger.go`.

Go pointers `*T` are `Option T` (`none` is `nil`).  A call is evaluated to an
`Outcome`: the records handed to each write target, in order, and how the call
ended (returned, `os.Exit`, or a run-time panic).  The libraries the code calls
(`zap`, `zapcore`, `fmt`, `strconv`, `os`, `runtime`) are embedded as far as the
repository uses them.
-/

set_option autoImplicit false

/-! ## runtime -/

namespace runtime

/-- One frame of a goroutine's call stack, as `runtime.Frame` reports it. -/
structure Frame where
  Function : String
  File : String
  Line : Nat
  deriving DecidableEq, Repr

end runtime

/-! ## fmt -/

namespace fmt

/-- An operand passed as `interface{}`. -/
inductive Value where
  | int (n : Int)
  | str (s : String)
  deriving DecidableEq, Repr

/-- The three renderers of package `fmt` that the repository calls. -/
structure Impl where
  Sprintf : String → List Value → String
  Sprint : List Value → String
  Sprintln : List Value → String

/-- Go type name of an operand, as printed in `%!verb(type=value)`. -/
def Value.typeName : Value → String
  | .int _ => "int"
  | .str _ => "string"

/-- The default (`%v`) rendering of an operand. -/
def Value.render : Value → String
  | .int n => toString n
  | .str s => s

/-- Whether the operand is of string kind. -/
def Value.isString : Value → Bool
  | .int _ => false
  | .str _ => true

/-- Loop of `doPrint`: a space is added between operands when neither is a string. -/
def doPrint : Bool → Bool → List Value → String
  | _, _, [] => ""
  | first, prevString, arg :: rest =>
    let sep := if !first && !arg.isString && !prevString then " " else ""
    sep ++ arg.render ++ doPrint false arg.isString rest

/-- Loop of `doPrintln`: spaces between all operands, newline appended. -/
def doPrintln : Bool → List Value → String
  | _, [] => "\n"
  | first, arg :: rest =>
    (if first then "" else " ") ++ arg.render ++ doPrintln false rest

/-- The `%!verb(type=value)` form printed for a verb that does not fit its operand. -/
def badVerb (verb : Char) (arg : Value) : String :=
  "%!" ++ String.singleton verb ++ "(" ++ arg.typeName ++ "=" ++ arg.render ++ ")"

/-- One directive `%verb` applied to its operand (verbs `v`, `d`, `s`). -/
def printArg (verb : Char) (arg : Value) : String :=
  match verb, arg with
  | 'v', a => a.render
  | 'd', .int n => toString n
  | 's', .str s => s
  | c, a => badVerb c a

/-- The `%!(EXTRA type=value, ...)` suffix for operands no directive consumed. -/
def extraArgs : List Value → String
  | [] => ""
  | a :: rest =>
    "%!(EXTRA " ++ ", ".intercalate ((a :: rest).map fun x => x.typeName ++ "=" ++ x.render) ++ ")"

/-- Loop of `doPrintf` over the format, for directives without flags, width or
precision and with the verbs `v`, `d` and `s` (other directives are outside
this embedding): `%%` prints a percent sign, a directive without an operand
prints `%!verb(MISSING)`, a trailing `%` prints `%!(NOVERB)` and ends the loop,
and operands that no directive consumed are reported after the loop. -/
def doPrintf : List Char → List Value → String
  | [], args => extraArgs args
  | '%' :: [], args => "%!(NOVERB)" ++ extraArgs args
  | '%' :: '%' :: rest, args => "%" ++ doPrintf rest args
  | '%' :: verb :: rest, [] => "%!" ++ String.singleton verb ++ "(MISSING)" ++ doPrintf rest []
  | '%' :: verb :: rest, arg :: args => printArg verb arg ++ doPrintf rest args
  | c :: rest, args => String.singleton c ++ doPrintf rest args

/-- Reference renderer: Go's `fmt` on operands of type `int` and `string` and on
formats whose directives are `%v`, `%d`, `%s` and `%%` without flags. -/
def std : Impl where
  Sprintf := fun format a => doPrintf format.toList a
  Sprint := fun a => doPrint true false a
  Sprintln := fun a => doPrintln true a

end fmt

/-! ## strconv and os -/

namespace strconv

/-- Value of a run of decimal digits, `none` on any other byte. -/
def digits : List Char → Nat → Option Nat
  | [], n => some n
  | c :: rest, n => if c.isDigit then digits rest (n * 10 + (c.toNat - 48)) else none

/-- Atoi of strconv for a 64-bit `int`: an optional sign followed by at least one
decimal digit, within the range of `int`; `none` stands for a non-nil error. -/
def Atoi (s : String) : Option Int :=
  let cs := s.toList
  let neg := cs.head? == some '-'
  let body := if cs.head? == some '-' || cs.head? == some '+' then cs.tail else cs
  if body.isEmpty then none
  else
    match digits body 0 with
    | none => none
    | some n =>
      let v : Int := if neg then -(n : Int) else (n : Int)
      if -(2 : Int) ^ 63 ≤ v ∧ v < (2 : Int) ^ 63 then some v else none

end strconv

namespace os

/-- The process environment: a variable is absent (`none`) or has a value. -/
abbrev Environ := String → Option String

/-- Getenv of os: the value of the variable, empty when it is absent. -/
def Getenv (env : Environ) (key : String) : String := (env key).getD ""

end os

/-! ## Outcome of a call -/

/-- How a call ended. -/
inductive Status where
  | returned
  | exited (code : Nat)
  | panicked (reason : String)
  deriving DecidableEq, Repr

/-! ## zapcore -/

namespace zapcore

/-- Severity, `type Level int8`. -/
abbrev Level := Int

/-- DebugLevel logs are typically voluminous. -/
abbrev DebugLevel : Level := -1
/-- InfoLevel is the default logging priority. -/
abbrev InfoLevel : Level := 0
/-- WarnLevel logs are more important than Info. -/
abbrev WarnLevel : Level := 1
/-- ErrorLevel logs are high-priority. -/
abbrev ErrorLevel : Level := 2
/-- DPanicLevel logs are particularly important errors. -/
abbrev DPanicLevel : Level := 3
/-- PanicLevel logs a message, then panics. -/
abbrev PanicLevel : Level := 4
/-- FatalLevel logs a message, then calls os.Exit(1). -/
abbrev FatalLevel : Level := 5

/-- Enabled of a Level used as a LevelEnabler: `return lvl >= l`. -/
def Level.Enabled (l lvl : Level) : Bool := decide (l ≤ lvl)

/-- Keys and line ending of an encoder (the encode functions are fixed by the
encoder variant and are not part of this record). -/
structure EncoderConfig where
  MessageKey : String
  LevelKey : String
  TimeKey : String
  NameKey : String
  CallerKey : String
  StacktraceKey : String
  LineEnding : String
  deriving DecidableEq, Repr

/-- The two encoders of zapcore. -/
inductive Encoder where
  | console (cfg : EncoderConfig)
  | json (cfg : EncoderConfig)
  deriving DecidableEq, Repr

/-- NewConsoleEncoder creates the human-readable encoder. -/
def NewConsoleEncoder (cfg : EncoderConfig) : Encoder := .console cfg

/-- NewJSONEncoder creates the structured encoder. -/
def NewJSONEncoder (cfg : EncoderConfig) : Encoder := .json cfg

/-- Write targets the repository builds: locked standard output, and a
lumberjack rotating file with its parameters. -/
inductive WriteSyncer where
  | stdout
  | lumberjack (Filename : String) (MaxSize MaxAge MaxBackups : Int) (LocalTime Compress : Bool)
  deriving DecidableEq, Repr

/-- A zap.AtomicLevel is a pointer to a level cell; a Logger of the facade
allocates two cells, and a core holds the cell it was built with. -/
inductive AtomicLevel where
  | console
  | file
  deriving DecidableEq, Repr

/-- Source location of the caller attached to an entry. -/
structure EntryCaller where
  Defined : Bool
  File : String
  Line : Nat
  Function : String
  deriving DecidableEq, Repr

/-- A structured log key and value. -/
structure Field where
  Key : String
  Integer : Int
  String : String
  deriving DecidableEq, Repr

/-- A log entry. `Stack` holds the frames of the captured stack trace (empty
when no trace was captured). -/
structure Entry where
  Level : Level
  Time : Nat
  LoggerName : String
  Message : String
  Caller : EntryCaller
  Stack : List runtime.Frame
  deriving DecidableEq, Repr

/-- An ioCore: level enabler, encoder and output. -/
structure Core where
  enab : AtomicLevel
  enc : Encoder
  out : WriteSyncer
  deriving DecidableEq, Repr

/-- NewCore creates a core that writes entries to a WriteSyncer. -/
def NewCore (enc : Encoder) (ws : WriteSyncer) (enab : AtomicLevel) : Core :=
  { enab := enab, enc := enc, out := ws }

/-- One record handed to a write target by `Core.Write`. -/
structure Written where
  out : WriteSyncer
  enc : Encoder
  ent : Entry
  fields : List Field
  deriving DecidableEq, Repr

/-- Core.Enabled, reading the current contents of the level cell. -/
def Core.Enabled (c : Core) (cell : AtomicLevel → Level) (lvl : Level) : Bool :=
  Level.Enabled (cell c.enab) lvl

/-- Core.Write: encode the entry and hand it to the output. -/
def Core.Write (c : Core) (ent : Entry) (fields : List Field) : Written :=
  { out := c.out, enc := c.enc, ent := ent, fields := fields }

/-- What to do after an entry has been written. -/
inductive CheckWriteAction where
  | WriteThenNoop
  | WriteThenPanic
  | WriteThenFatal
  deriving DecidableEq, Repr

/-- An entry together with the cores that agreed to log it. -/
structure CheckedEntry where
  Entry : Entry
  should : CheckWriteAction
  cores : List Core
  deriving DecidableEq, Repr

/-- CheckedEntry.AddCore on a possibly nil checked entry. -/
def AddCore (ce : Option CheckedEntry) (ent : Entry) (core : Core) : Option CheckedEntry :=
  match ce with
  | none => some { Entry := ent, should := .WriteThenNoop, cores := [core] }
  | some ce => some { ce with cores := ce.cores ++ [core] }

/-- CheckedEntry.Should on a possibly nil checked entry. -/
def Should (ce : Option CheckedEntry) (ent : Entry) (should : CheckWriteAction) :
    Option CheckedEntry :=
  match ce with
  | none => some { Entry := ent, should := should, cores := [] }
  | some ce => some { ce with should := should }

/-- Core.Check: add the core to the checked entry when it is enabled for the level. -/
def Core.Check (c : Core) (cell : AtomicLevel → Level) (ent : Entry)
    (ce : Option CheckedEntry) : Option CheckedEntry :=
  if c.Enabled cell ent.Level then AddCore ce ent c else ce

/-- The result of NewTee: the cores it fans out to (none: the no-op core). -/
abbrev Tee := List Core

/-- NewTee creates a core that duplicates log entries into the given cores. -/
def NewTee (cores : List Core) : Tee := cores

/-- Enabled of the tee: some core is enabled. -/
def Tee.Enabled (mc : Tee) (cell : AtomicLevel → Level) (lvl : Level) : Bool :=
  mc.any fun c => c.Enabled cell lvl

/-- Check of the tee: each core in turn. -/
def Tee.Check (mc : Tee) (cell : AtomicLevel → Level) (ent : Entry)
    (ce : Option CheckedEntry) : Option CheckedEntry :=
  mc.foldl (fun ce c => c.Check cell ent ce) ce

end zapcore

/-- Result of a call: the records written, oldest first, and how the call ended. -/
structure Outcome where
  written : List zapcore.Written
  status : Status
  deriving DecidableEq, Repr

/-- A call that returns having written nothing. -/
def Outcome.noop : Outcome := { written := [], status := .returned }

/-- A call that faults on a nil function value or nil pointer. -/
def Outcome.nilDereference : Outcome :=
  { written := [], status := .panicked "invalid memory address or nil pointer dereference" }

/-- CheckedEntry.Write: write to every core that agreed, then act on `should`. -/
def zapcore.CheckedEntry.Write (ce : zapcore.CheckedEntry) (fields : List zapcore.Field) :
    Outcome :=
  { written := ce.cores.map fun c => c.Write ce.Entry fields
    status :=
      match ce.should with
      | .WriteThenNoop => .returned
      | .WriteThenPanic => .panicked ce.Entry.Message
      | .WriteThenFatal => .exited 1 }

/-- The state of the calling goroutine at a call: its stack, innermost frame
first (the frame of the function making the call, at the line of the call), and
the clock. -/
structure Goroutine where
  stack : List runtime.Frame
  now : Nat
  deriving DecidableEq, Repr

/-- The goroutine inside a callee: the callee's frame pushed on the stack. -/
def Goroutine.enter (g : Goroutine) (function file : String) (line : Nat) : Goroutine :=
  { g with stack := { Function := function, File := file, Line := line } :: g.stack }

/-! ## zap -/

namespace zap

open zapcore

/-- The fields of zap.Logger that the options of the facade set. -/
structure Logger where
  core : Tee
  name : String
  addCaller : Bool
  addStack : Level
  callerSkip : Nat
  deriving DecidableEq, Repr

/-- Skipped by check on top of callerSkip: check itself and the leveled method of zap. -/
def callerSkipOffset : Nat := 2

/-- The entry caller of the frame found at the requested depth, undefined when
the stack is not that deep. -/
def entryCaller (frames : List runtime.Frame) : EntryCaller :=
  match frames with
  | [] => { Defined := false, File := "", Line := 0, Function := "" }
  | f :: _ => { Defined := true, File := f.File, Line := f.Line, Function := f.Function }

/-- Logger.check: decide whether the entry is logged and by which cores, and
attach caller and stack trace, both taken callerSkip + callerSkipOffset frames
above check. -/
def Logger.check (log : Logger) (cell : AtomicLevel → Level) (g : Goroutine)
    (lvl : Level) (msg : String) : Option CheckedEntry :=
  let g := g.enter "go.uber.org/zap.(*Logger).check" "logger.go" 0
  if lvl < DPanicLevel && !log.core.Enabled cell lvl then none
  else
    let ent : Entry :=
      { Level := lvl, Time := g.now, LoggerName := log.name, Message := msg
        Caller := { Defined := false, File := "", Line := 0, Function := "" }, Stack := [] }
    let ce := log.core.Check cell ent none
    let willWrite := ce.isSome
    let ce :=
      if ent.Level = PanicLevel then Should ce ent .WriteThenPanic
      else if ent.Level = FatalLevel then Should ce ent .WriteThenFatal
      else ce
    match willWrite, ce with
    | true, some ce =>
      let frames := g.stack.drop (log.callerSkip + callerSkipOffset)
      let caller := if log.addCaller then entryCaller frames else ce.Entry.Caller
      let stack := if Level.Enabled log.addStack ce.Entry.Level then frames else []
      some { ce with Entry := { ce.Entry with Caller := caller, Stack := stack } }
    | _, ce => ce

/-- Shared body of the leveled methods of zap.Logger:
`if ce := log.check(lvl, msg); ce != nil { ce.Write(fields...) }`;
a nil receiver faults when check reads the logger. -/
def Logger.leveled (log : Option Logger) (method : String) (lvl : Level)
    (cell : AtomicLevel → Level) (g : Goroutine) (msg : String)
    (fields : List Field) : Outcome :=
  match log with
  | none => Outcome.nilDereference
  | some log =>
    match log.check cell (g.enter ("go.uber.org/zap.(*Logger)." ++ method) "logger.go" 0) lvl msg with
    | none => Outcome.noop
    | some ce => ce.Write fields

/-- Debug logs a message at DebugLevel. -/
def Logger.Debug (log : Option Logger) :=
  Logger.leveled log "Debug" DebugLevel

/-- Info logs a message at InfoLevel. -/
def Logger.Info (log : Option Logger) :=
  Logger.leveled log "Info" InfoLevel

/-- Warn logs a message at WarnLevel. -/
def Logger.Warn (log : Option Logger) :=
  Logger.leveled log "Warn" WarnLevel

/-- Error logs a message at ErrorLevel. -/
def Logger.Error (log : Option Logger) :=
  Logger.leveled log "Error" ErrorLevel

/-- Fatal logs a message at FatalLevel, then calls os.Exit(1). -/
def Logger.Fatal (log : Option Logger) :=
  Logger.leveled log "Fatal" FatalLevel

/-- A zap.Option. -/
inductive Option where
  | AddCallerSkip (skip : Nat)
  | AddCaller
  | AddStacktrace (lvl : Level)
  deriving DecidableEq, Repr

/-- Apply an option to the logger. -/
def Option.apply (opt : zap.Option) (log : Logger) : Logger :=
  match opt with
  | .AddCallerSkip skip => { log with callerSkip := log.callerSkip + skip }
  | .AddCaller => { log with addCaller := true }
  | .AddStacktrace lvl => { log with addStack := lvl }

/-- New constructs a logger from the core and the options; by default stack
traces are disabled (`FatalLevel + 1`) and no caller is attached. -/
def New (core : Tee) (options : List zap.Option) : Logger :=
  options.foldl (fun log opt => opt.apply log)
    { core := core, name := "", addCaller := false, addStack := FatalLevel + 1, callerSkip := 0 }

end zap

/-! ## zapper -/

namespace zapper

open zapcore

/-- Name of the debug level. -/
def levelDebug : String := "debug"
/-- Name of the info level. -/
def levelInfo : String := "info"
/-- Name of the warn level. -/
def levelWarn : String := "warn"
/-- Name of the error level. -/
def levelError : String := "error"
/-- Name of the fatal level. -/
def levelFatal : String := "fatal"

/-- Modelled from the spec: the declaration of `Config` is not among the source
files; the fields are the options listed in the configuration table, with the
types that `NewLogger` uses them at. -/
structure Config where
  EnableConsole : Bool
  ConsoleLevel : String
  ConsoleFormat : String
  EnableFile : Bool
  FileLevel : String
  FileFormat : String
  FilePath : String
  FileMaxSize : Int
  FileMaxAge : Int
  FileMaxBackups : Int
  FileLocalTime : Bool
  FileCompress : Bool
  deriving DecidableEq, Repr

/-- The level a level name stands for; `switch level` with its cases in source order. -/
def zapLevel (level : String) : Level :=
  if level = levelInfo then InfoLevel
  else if level = levelWarn then WarnLevel
  else if level = levelDebug then DebugLevel
  else if level = levelError then ErrorLevel
  else if level = levelFatal then FatalLevel
  else InfoLevel

/-- The keys both encoders are configured with. -/
def newEncoderConfig : EncoderConfig :=
  { TimeKey := "timestamp"
    LevelKey := "level"
    NameKey := "logger"
    CallerKey := "caller"
    MessageKey := "msg"
    StacktraceKey := "stacktrace"
    LineEnding := "\n" }

/-- Package variable `encoderConfig`. -/
def encoderConfig : EncoderConfig := newEncoderConfig

/-- The human-readable encoder. -/
def planeTextEncoder : Encoder := NewConsoleEncoder encoderConfig

/-- The structured encoder. -/
def jsonEncoder : Encoder := NewJSONEncoder encoderConfig

/-- Logger is struct for logging; the two level fields are the contents of the
two level cells, `zap` is a pointer. -/
structure Logger where
  zap : Option zap.Logger
  consoleLevel : Level
  fileLevel : Level
  deriving DecidableEq, Repr

/-- Current contents of the level cells of a Logger. -/
def Logger.cell (l : Logger) : AtomicLevel → Level
  | .console => l.consoleLevel
  | .file => l.fileLevel

/-- NewLogger builds a Logger (from the Config that `config` points to). -/
def NewLogger (config : Config) : Logger :=
  let cores : List Core := []
  let consoleLevel := zapLevel config.ConsoleLevel
  let fileLevel := zapLevel config.FileLevel
  let cores :=
    if config.EnableConsole then
      let writer := WriteSyncer.stdout
      let encoder :=
        if config.ConsoleFormat = "json" then jsonEncoder
        else if config.ConsoleFormat = "text" then planeTextEncoder
        else planeTextEncoder
      let core := NewCore encoder writer AtomicLevel.console
      cores ++ [core]
    else cores
  let cores :=
    if config.EnableFile then
      let writer := WriteSyncer.lumberjack config.FilePath config.FileMaxSize config.FileMaxAge
        config.FileMaxBackups config.FileLocalTime config.FileCompress
      let encoder :=
        if config.FileFormat = "json" then jsonEncoder
        else if config.FileFormat = "text" then planeTextEncoder
        else planeTextEncoder
      let core := NewCore encoder writer AtomicLevel.file
      cores ++ [core]
    else cores
  let combinedCore := NewTee cores
  { zap := some (zap.New combinedCore
      [zap.Option.AddCallerSkip 2, zap.Option.AddCaller, zap.Option.AddStacktrace ErrorLevel])
    consoleLevel := consoleLevel
    fileLevel := fileLevel }

/-- Import path of the facade, as it appears in function names of stack frames. -/
def pkgPath : String := "github.com/betchi/zapper.(*Logger)."

/-- Debug logs a message at DebugLevel. -/
def Logger.Debug (l : Option Logger) (g : Goroutine) (msg : String) (fields : List Field) :
    Outcome :=
  match l with
  | none => Outcome.noop
  | some l => zap.Logger.Debug l.zap l.cell (g.enter (pkgPath ++ "Debug") "zapper.go" 184) msg fields

/-- Info logs a message at InfoLevel. -/
def Logger.Info (l : Option Logger) (g : Goroutine) (msg : String) (fields : List Field) :
    Outcome :=
  match l with
  | none => Outcome.noop
  | some l => zap.Logger.Info l.zap l.cell (g.enter (pkgPath ++ "Info") "zapper.go" 192) msg fields

/-- Warn logs a message at WarnLevel. -/
def Logger.Warn (l : Option Logger) (g : Goroutine) (msg : String) (fields : List Field) :
    Outcome :=
  match l with
  | none => Outcome.noop
  | some l => zap.Logger.Warn l.zap l.cell (g.enter (pkgPath ++ "Warn") "zapper.go" 200) msg fields

/-- Error logs a message at ErrorLevel. -/
def Logger.Error (l : Option Logger) (g : Goroutine) (msg : String) (fields : List Field) :
    Outcome :=
  match l with
  | none => Outcome.noop
  | some l => zap.Logger.Error l.zap l.cell (g.enter (pkgPath ++ "Error") "zapper.go" 208) msg fields

/-- Fatal logs a message at FatalLevel. -/
def Logger.Fatal (l : Option Logger) (g : Goroutine) (msg : String) (fields : List Field) :
    Outcome :=
  match l with
  | none => Outcome.noop
  | some l => zap.Logger.Fatal l.zap l.cell (g.enter (pkgPath ++ "Fatal") "zapper.go" 216) msg fields

/-- Debugf logs the rendered format string at DebugLevel. -/
def Logger.Debugf (F : fmt.Impl) (l : Option Logger) (g : Goroutine) (msg : String)
    (keysAndValues : List fmt.Value) : Outcome :=
  match l with
  | none => Outcome.noop
  | some l =>
    zap.Logger.Debug l.zap l.cell (g.enter (pkgPath ++ "Debugf") "zapper.go" 224)
      (F.Sprintf msg keysAndValues) []

/-- Infof logs the rendered format string at InfoLevel. -/
def Logger.Infof (F : fmt.Impl) (l : Option Logger) (g : Goroutine) (msg : String)
    (keysAndValues : List fmt.Value) : Outcome :=
  match l with
  | none => Outcome.noop
  | some l =>
    zap.Logger.Info l.zap l.cell (g.enter (pkgPath ++ "Infof") "zapper.go" 232)
      (F.Sprintf msg keysAndValues) []

/-- Warnf logs the rendered format string at WarnLevel. -/
def Logger.Warnf (F : fmt.Impl) (l : Option Logger) (g : Goroutine) (msg : String)
    (keysAndValues : List fmt.Value) : Outcome :=
  match l with
  | none => Outcome.noop
  | some l =>
    zap.Logger.Warn l.zap l.cell (g.enter (pkgPath ++ "Warnf") "zapper.go" 240)
      (F.Sprintf msg keysAndValues) []

/-- Errorf logs the rendered format string at ErrorLevel. -/
def Logger.Errorf (F : fmt.Impl) (l : Option Logger) (g : Goroutine) (msg : String)
    (keysAndValues : List fmt.Value) : Outcome :=
  match l with
  | none => Outcome.noop
  | some l =>
    zap.Logger.Error l.zap l.cell (g.enter (pkgPath ++ "Errorf") "zapper.go" 248)
      (F.Sprintf msg keysAndValues) []

/-- Fatalf logs the rendered format string at FatalLevel. -/
def Logger.Fatalf (F : fmt.Impl) (l : Option Logger) (g : Goroutine) (msg : String)
    (keysAndValues : List fmt.Value) : Outcome :=
  match l with
  | none => Outcome.noop
  | some l =>
    zap.Logger.Fatal l.zap l.cell (g.enter (pkgPath ++ "Fatalf") "zapper.go" 256)
      (F.Sprintf msg keysAndValues) []

/-- Type of the package variables `Debug` .. `Fatal`. -/
abbrev FieldsFunc := Goroutine → String → List Field → Outcome

/-- Type of the package variables `Debugf` .. `Fatalf`. -/
abbrev FormatFunc := Goroutine → String → List fmt.Value → Outcome

/-- The package-level variables: the global logger and the ten function
variables (`none` is the nil function value). -/
structure Globals where
  logger : Option Logger
  Debug : Option FieldsFunc
  Info : Option FieldsFunc
  Warn : Option FieldsFunc
  Error : Option FieldsFunc
  Fatal : Option FieldsFunc
  Debugf : Option FormatFunc
  Infof : Option FormatFunc
  Warnf : Option FormatFunc
  Errorf : Option FormatFunc
  Fatalf : Option FormatFunc

/-- The package variables at program start: every one has its zero value. -/
def Globals.zero : Globals :=
  { logger := none
    Debug := none, Info := none, Warn := none, Error := none, Fatal := none
    Debugf := none, Infof := none, Warnf := none, Errorf := none, Fatalf := none }

/-- InitGlobalLogger builds a logger and binds the method values of the new
logger to the function variables. -/
def InitGlobalLogger (F : fmt.Impl) (config : Config) (_p : Globals) : Globals :=
  let logger := some (NewLogger config)
  { logger := logger
    Debug := some (Logger.Debug logger)
    Info := some (Logger.Info logger)
    Warn := some (Logger.Warn logger)
    Error := some (Logger.Error logger)
    Fatal := some (Logger.Fatal logger)
    Debugf := some (Logger.Debugf F logger)
    Infof := some (Logger.Infof F logger)
    Warnf := some (Logger.Warnf F logger)
    Errorf := some (Logger.Errorf F logger)
    Fatalf := some (Logger.Fatalf F logger) }

/-- GlobalLogger retrieve global logger. -/
def GlobalLogger (p : Globals) : Option Logger := p.logger

/-- A call of a function variable: calling the nil function value faults. -/
def call {α : Type} (f : Option (Goroutine → String → α → Outcome)) (g : Goroutine)
    (msg : String) (a : α) : Outcome :=
  match f with
  | none => Outcome.nilDereference
  | some f => f g msg a

/-- The ten leveled operations. -/
inductive Method where
  | Debug | Info | Warn | Error | Fatal
  | Debugf | Infof | Warnf | Errorf | Fatalf
  deriving DecidableEq, Repr

/-- Severity a leveled operation logs at. -/
def Method.level : Method → Level
  | .Debug | .Debugf => DebugLevel
  | .Info | .Infof => InfoLevel
  | .Warn | .Warnf => WarnLevel
  | .Error | .Errorf => ErrorLevel
  | .Fatal | .Fatalf => FatalLevel

/-- The method of `*Logger` named by `m`, applied to a message (or format), the
fields (used by the fields-based methods) and the operands (used by the
formatted methods). -/
def Logger.invoke (F : fmt.Impl) (m : Method) (l : Option Logger) (g : Goroutine)
    (msg : String) (fields : List Field) (values : List fmt.Value) : Outcome :=
  match m with
  | .Debug => Logger.Debug l g msg fields
  | .Info => Logger.Info l g msg fields
  | .Warn => Logger.Warn l g msg fields
  | .Error => Logger.Error l g msg fields
  | .Fatal => Logger.Fatal l g msg fields
  | .Debugf => Logger.Debugf F l g msg values
  | .Infof => Logger.Infof F l g msg values
  | .Warnf => Logger.Warnf F l g msg values
  | .Errorf => Logger.Errorf F l g msg values
  | .Fatalf => Logger.Fatalf F l g msg values

/-- The package-level function variable named by `m`, called with the same arguments. -/
def Globals.invoke (p : Globals) (m : Method) (g : Goroutine)
    (msg : String) (fields : List Field) (values : List fmt.Value) : Outcome :=
  match m with
  | .Debug => call p.Debug g msg fields
  | .Info => call p.Info g msg fields
  | .Warn => call p.Warn g msg fields
  | .Error => call p.Error g msg fields
  | .Fatal => call p.Fatal g msg fields
  | .Debugf => call p.Debugf g msg values
  | .Infof => call p.Infof g msg values
  | .Warnf => call p.Warnf g msg values
  | .Errorf => call p.Errorf g msg values
  | .Fatalf => call p.Fatalf g msg values

end zapper

/-! ## grpc shim -/

namespace grpc

/-- Config is settings of the shim. -/
structure Config where
  Noop : Bool
  deriving DecidableEq, Repr

/-- Logger is the shim handed to the RPC framework. -/
structure Logger where
  noop : Bool
  v : Int
  deriving DecidableEq, Repr

/-- The package-level variable `logger` of the shim. -/
structure Globals where
  logger : Option Logger
  deriving DecidableEq, Repr

/-- The package variable at program start. -/
def Globals.zero : Globals := { logger := none }

/-- InitGlobalLogger builds the shim and reads its verbosity from the environment. -/
def InitGlobalLogger (env : os.Environ) (config : Config) (_p : Globals) : Globals :=
  let logger : Logger := { noop := config.Noop, v := 0 }
  let vLevel := os.Getenv env "GRPC_GO_LOG_VERBOSITY_LEVEL"
  match strconv.Atoi vLevel with
  | some vl => { logger := some { logger with v := vl } }
  | none => { logger := some logger }

/-- GlobalLogger retrieve global logger of the shim. -/
def GlobalLogger (p : Globals) : Option Logger := p.logger

/-- The guard `l == nil || l.noop` that opens every logging method. -/
def Logger.silent (l : Option Logger) : Bool :=
  match l with
  | none => true
  | some l => l.noop

/-- Import path of the shim, as it appears in function names of stack frames. -/
def pkgPath : String := "github.com/betchi/zapper/grpc.(*Logger)."

/-- Info logs to INFO log. Arguments are handled in the manner of fmt.Print. -/
def Logger.Info (F : fmt.Impl) (z : zapper.Globals) (l : Option Logger) (g : Goroutine)
    (args : List fmt.Value) : Outcome :=
  if Logger.silent l then Outcome.noop
  else zapper.Logger.Info (zapper.GlobalLogger z)
    (g.enter (pkgPath ++ "Info") "grpc_logger.go" 49) (F.Sprint args) []

/-- Infoln logs to INFO log. Arguments are handled in the manner of fmt.Println. -/
def Logger.Infoln (F : fmt.Impl) (z : zapper.Globals) (l : Option Logger) (g : Goroutine)
    (args : List fmt.Value) : Outcome :=
  if Logger.silent l then Outcome.noop
  else zapper.Logger.Info (zapper.GlobalLogger z)
    (g.enter (pkgPath ++ "Infoln") "grpc_logger.go" 58) (F.Sprintln args) []

/-- Infof logs to INFO log. Arguments are handled in the manner of fmt.Printf. -/
def Logger.Infof (F : fmt.Impl) (z : zapper.Globals) (l : Option Logger) (g : Goroutine)
    (format : String) (args : List fmt.Value) : Outcome :=
  if Logger.silent l then Outcome.noop
  else zapper.Logger.Info (zapper.GlobalLogger z)
    (g.enter (pkgPath ++ "Infof") "grpc_logger.go" 67) (F.Sprintf format args) []

/-- Warning logs to WARNING log. Arguments are handled in the manner of fmt.Print. -/
def Logger.Warning (F : fmt.Impl) (z : zapper.Globals) (l : Option Logger) (g : Goroutine)
    (args : List fmt.Value) : Outcome :=
  if Logger.silent l then Outcome.noop
  else zapper.Logger.Warn (zapper.GlobalLogger z)
    (g.enter (pkgPath ++ "Warning") "grpc_logger.go" 76) (F.Sprint args) []

/-- Warningln logs to WARNING log. Arguments are handled in the manner of fmt.Println. -/
def Logger.Warningln (F : fmt.Impl) (z : zapper.Globals) (l : Option Logger) (g : Goroutine)
    (args : List fmt.Value) : Outcome :=
  if Logger.silent l then Outcome.noop
  else zapper.Logger.Warn (zapper.GlobalLogger z)
    (g.enter (pkgPath ++ "Warningln") "grpc_logger.go" 85) (F.Sprintln args) []

/-- Warningf logs to WARNING log. Arguments are handled in the manner of fmt.Printf.
(The body passes `fmt.Sprint(args...)`; the format is not used.) -/
def Logger.Warningf (F : fmt.Impl) (z : zapper.Globals) (l : Option Logger) (g : Goroutine)
    (_format : String) (args : List fmt.Value) : Outcome :=
  if Logger.silent l then Outcome.noop
  else zapper.Logger.Warn (zapper.GlobalLogger z)
    (g.enter (pkgPath ++ "Warningf") "grpc_logger.go" 94) (F.Sprint args) []

/-- Error logs to ERROR log. Arguments are handled in the manner of fmt.Print. -/
def Logger.Error (F : fmt.Impl) (z : zapper.Globals) (l : Option Logger) (g : Goroutine)
    (args : List fmt.Value) : Outcome :=
  if Logger.silent l then Outcome.noop
  else zapper.Logger.Error (zapper.GlobalLogger z)
    (g.enter (pkgPath ++ "Error") "grpc_logger.go" 103) (F.Sprint args) []

/-- Errorln logs to ERROR log. Arguments are handled in the manner of fmt.Println. -/
def Logger.Errorln (F : fmt.Impl) (z : zapper.Globals) (l : Option Logger) (g : Goroutine)
    (args : List fmt.Value) : Outcome :=
  if Logger.silent l then Outcome.noop
  else zapper.Logger.Error (zapper.GlobalLogger z)
    (g.enter (pkgPath ++ "Errorln") "grpc_logger.go" 112) (F.Sprintln args) []

/-- Errorf logs to ERROR log. Arguments are handled in the manner of fmt.Printf. -/
def Logger.Errorf (F : fmt.Impl) (z : zapper.Globals) (l : Option Logger) (g : Goroutine)
    (format : String) (args : List fmt.Value) : Outcome :=
  if Logger.silent l then Outcome.noop
  else zapper.Logger.Error (zapper.GlobalLogger z)
    (g.enter (pkgPath ++ "Errorf") "grpc_logger.go" 121) (F.Sprintf format args) []

/-- Fatal logs to ERROR log. Arguments are handled in the manner of fmt.Print. -/
def Logger.Fatal (F : fmt.Impl) (z : zapper.Globals) (l : Option Logger) (g : Goroutine)
    (args : List fmt.Value) : Outcome :=
  if Logger.silent l then Outcome.noop
  else zapper.Logger.Fatal (zapper.GlobalLogger z)
    (g.enter (pkgPath ++ "Fatal") "grpc_logger.go" 132) (F.Sprint args) []

/-- Fatalln logs to ERROR log. Arguments are handled in the manner of fmt.Println. -/
def Logger.Fatalln (F : fmt.Impl) (z : zapper.Globals) (l : Option Logger) (g : Goroutine)
    (args : List fmt.Value) : Outcome :=
  if Logger.silent l then Outcome.noop
  else zapper.Logger.Fatal (zapper.GlobalLogger z)
    (g.enter (pkgPath ++ "Fatalln") "grpc_logger.go" 143) (F.Sprintln args) []

/-- Fatalf logs to ERROR log. Arguments are handled in the manner of fmt.Printf. -/
def Logger.Fatalf (F : fmt.Impl) (z : zapper.Globals) (l : Option Logger) (g : Goroutine)
    (format : String) (args : List fmt.Value) : Outcome :=
  if Logger.silent l then Outcome.noop
  else zapper.Logger.Fatal (zapper.GlobalLogger z)
    (g.enter (pkgPath ++ "Fatalf") "grpc_logger.go" 154) (F.Sprintf format args) []

/-- V reports whether verbosity level l is at least the requested verbose level;
`none` is the fault of reading `l.v` through a nil pointer. -/
def Logger.V (l : Option Logger) (v : Int) : Option Bool :=
  match l with
  | none => none
  | some l => some (decide (v ≤ l.v))

end grpc

/-! ## Observations on outcomes -/

namespace zapcore

/-- The cores of a tee that are enabled for a level, in construction order. -/
def Tee.accepting (mc : Tee) (cell : AtomicLevel → Level) (lvl : Level) : List Core :=
  mc.filter fun c => c.Enabled cell lvl

end zapcore

namespace zap
open zapcore

/-- The entry a logger hands to its cores for a leveled call made from `g`
(the goroutine at the caller of the leveled method of zap). -/
def Logger.entry (log : Logger) (g : Goroutine) (lvl : Level) (msg : String) : Entry :=
  { Level := lvl, Time := g.now, LoggerName := log.name, Message := msg
    Caller :=
      if log.addCaller then entryCaller (g.stack.drop log.callerSkip)
      else { Defined := false, File := "", Line := 0, Function := "" }
    Stack := if Level.Enabled log.addStack lvl then g.stack.drop log.callerSkip else [] }

end zap

namespace zapper
open zapcore

/-- Records of an outcome that went to standard output. -/
def consoleRecords (o : Outcome) : List Written :=
  o.written.filter fun w => decide (w.out = WriteSyncer.stdout)

/-- Records of an outcome that went to a rotating file. -/
def fileRecords (o : Outcome) : List Written :=
  o.written.filter fun w => decide (w.out ≠ WriteSyncer.stdout)

/-- Name of a leveled operation. -/
def Method.name : Method → String
  | .Debug => "Debug" | .Info => "Info" | .Warn => "Warn" | .Error => "Error" | .Fatal => "Fatal"
  | .Debugf => "Debugf" | .Infof => "Infof" | .Warnf => "Warnf" | .Errorf => "Errorf"
  | .Fatalf => "Fatalf"

/-- Line of `zapper.go` at which a leveled operation calls zap. -/
def Method.line : Method → Nat
  | .Debug => 184 | .Info => 192 | .Warn => 200 | .Error => 208 | .Fatal => 216
  | .Debugf => 224 | .Infof => 232 | .Warnf => 240 | .Errorf => 248 | .Fatalf => 256

/-- Whether the operation takes a format and operands. -/
def Method.formatted : Method → Bool
  | .Debug | .Info | .Warn | .Error | .Fatal => false
  | .Debugf | .Infof | .Warnf | .Errorf | .Fatalf => true

/-- The fields-based operation of the same severity. -/
def Method.plain : Method → Method
  | .Debug | .Debugf => .Debug
  | .Info | .Infof => .Info
  | .Warn | .Warnf => .Warn
  | .Error | .Errorf => .Error
  | .Fatal | .Fatalf => .Fatal

/-- The formatted operation of the same severity. -/
def Method.withFormat : Method → Method
  | .Debug | .Debugf => .Debugf
  | .Info | .Infof => .Infof
  | .Warn | .Warnf => .Warnf
  | .Error | .Errorf => .Errorf
  | .Fatal | .Fatalf => .Fatalf

/-- The encoder of the console core of a logger, when it has one. -/
def Logger.consoleEncoder (l : Logger) : Option Encoder :=
  match l.zap with
  | none => none
  | some log => (log.core.find? fun c => decide (c.out = WriteSyncer.stdout)).map fun c => c.enc

/-- The encoder of the file core of a logger, when it has one. -/
def Logger.fileEncoder (l : Logger) : Option Encoder :=
  match l.zap with
  | none => none
  | some log => (log.core.find? fun c => decide (c.out ≠ WriteSyncer.stdout)).map fun c => c.enc

/-- The rotating-file write target that NewLogger builds for a configuration. -/
def Config.fileWriter (config : Config) : WriteSyncer :=
  WriteSyncer.lumberjack config.FilePath config.FileMaxSize config.FileMaxAge
    config.FileMaxBackups config.FileLocalTime config.FileCompress

/-- The ten function variables hold the method values of the logger `l`. -/
def Globals.boundTo (F : fmt.Impl) (p : Globals) (l : Option Logger) : Prop :=
  p.Debug = some (Logger.Debug l) ∧ p.Info = some (Logger.Info l)
    ∧ p.Warn = some (Logger.Warn l) ∧ p.Error = some (Logger.Error l)
    ∧ p.Fatal = some (Logger.Fatal l) ∧ p.Debugf = some (Logger.Debugf F l)
    ∧ p.Infof = some (Logger.Infof F l) ∧ p.Warnf = some (Logger.Warnf F l)
    ∧ p.Errorf = some (Logger.Errorf F l) ∧ p.Fatalf = some (Logger.Fatalf F l)

/-- A configuration with only the console sink, at the given level and format. -/
def consoleOnly (level format : String) : Config :=
  { EnableConsole := true, ConsoleLevel := level, ConsoleFormat := format
    EnableFile := false, FileLevel := "", FileFormat := "", FilePath := ""
    FileMaxSize := 0, FileMaxAge := 0, FileMaxBackups := 0
    FileLocalTime := false, FileCompress := false }

/-- A goroutine in which `main.main` (main.go:30) has called `main.handler`,
which makes the logging call at main.go:12. -/
def handlerCall : Goroutine :=
  { stack :=
      [{ Function := "main.handler", File := "main.go", Line := 12 },
       { Function := "main.main", File := "main.go", Line := 30 },
       { Function := "runtime.main", File := "proc.go", Line := 250 }]
    now := 0 }

/-- A sequence of InitGlobalLogger calls, one per configuration, in order. -/
def InitGlobalLoggers (F : fmt.Impl) (configs : List Config) (p : Globals) : Globals :=
  configs.foldl (fun p config => InitGlobalLogger F config p) p

/-- The logger after its two level cells have been set to the given levels. -/
def Logger.withLevels (l : Logger) (consoleLevel fileLevel : Level) : Logger :=
  { l with consoleLevel := consoleLevel, fileLevel := fileLevel }

/-- The zero value `Logger{}` with the given contents of its level cells: its
`zap` pointer is nil. -/
def Logger.zeroValue (consoleLevel fileLevel : Level) : Logger :=
  { zap := none, consoleLevel := consoleLevel, fileLevel := fileLevel }

end zapper

/-! ## Dispatch lemmas -/

namespace zapcore

theorem Tee.Check_cons (c : Core) (rest : Tee) (cell : AtomicLevel → Level) (ent : Entry)
    (ce : Option CheckedEntry) :
    Tee.Check (c :: rest) cell ent ce = Tee.Check rest cell ent (c.Check cell ent ce) := rfl

theorem Tee.accepting_cons (c : Core) (rest : Tee) (cell : AtomicLevel → Level) (lvl : Level) :
    Tee.accepting (c :: rest) cell lvl
      = if c.Enabled cell lvl then c :: Tee.accepting rest cell lvl
        else Tee.accepting rest cell lvl := by
  simp [Tee.accepting, List.filter_cons]

theorem Tee.Check_some (mc : Tee) (cell : AtomicLevel → Level) (ent : Entry)
    (ce : CheckedEntry) :
    Tee.Check mc cell ent (some ce)
      = some { ce with cores := ce.cores ++ Tee.accepting mc cell ent.Level } := by
  induction mc generalizing ce with
  | nil => simp [Tee.Check, Tee.accepting]
  | cons c rest ih =>
    rw [Tee.Check_cons, Tee.accepting_cons]
    by_cases h : c.Enabled cell ent.Level
    · rw [Core.Check, if_pos h, AddCore, ih]; simp [h]
    · rw [Core.Check, if_neg h, ih]; simp [h]

theorem Tee.Check_none (mc : Tee) (cell : AtomicLevel → Level) (ent : Entry) :
    Tee.Check mc cell ent none
      = if Tee.accepting mc cell ent.Level = [] then none
        else some { Entry := ent, should := .WriteThenNoop
                    cores := Tee.accepting mc cell ent.Level } := by
  induction mc with
  | nil => simp [Tee.Check, Tee.accepting]
  | cons c rest ih =>
    rw [Tee.Check_cons, Tee.accepting_cons]
    by_cases h : c.Enabled cell ent.Level
    · rw [Core.Check, if_pos h, AddCore, Tee.Check_some]; simp [h]
    · rw [Core.Check, if_neg h, ih]; simp [h]

theorem Tee.Enabled_eq (mc : Tee) (cell : AtomicLevel → Level) (lvl : Level) :
    Tee.Enabled mc cell lvl = !(Tee.accepting mc cell lvl).isEmpty := by
  induction mc with
  | nil => simp [Tee.Enabled, Tee.accepting]
  | cons c rest ih =>
    simp only [Tee.Enabled, Tee.accepting] at ih ⊢
    by_cases h : c.Enabled cell lvl <;> simp [h, ih, List.filter_cons]

end zapcore

namespace zap
open zapcore

theorem Logger.leveled_eq (log : Logger) (method : String) (lvl : Level)
    (cell : AtomicLevel → Level) (g : Goroutine) (msg : String) (fields : List Field)
    (hp : lvl ≠ PanicLevel) :
    Logger.leveled (some log) method lvl cell g msg fields
      = { written := (Tee.accepting log.core cell lvl).map fun c =>
            c.Write (log.entry g lvl msg) fields
          status := if lvl = FatalLevel then .exited 1 else .returned } := by
  have hdrop : ∀ (a b : runtime.Frame), List.drop (log.callerSkip + callerSkipOffset)
      (a :: b :: g.stack) = g.stack.drop log.callerSkip := by
    intro a b; simp [callerSkipOffset]
  have h53 : ¬ ((FatalLevel : Level) < DPanicLevel) := by decide
  unfold Logger.leveled Logger.check
  simp only [Tee.Enabled_eq, Tee.Check_none, Goroutine.enter, hdrop]
  by_cases hacc : Tee.accepting log.core cell lvl = []
  · by_cases hf : lvl = FatalLevel
    · subst hf
      simp [hacc, h53, Should, CheckedEntry.Write]
    · by_cases hlt : lvl < DPanicLevel
      · simp [hacc, hf, hlt, Outcome.noop]
      · simp [hacc, hf, hlt, hp, Outcome.noop]
  · have hlt : ¬ (lvl < DPanicLevel ∧ Tee.accepting log.core cell lvl = []) := by
      intro h; exact hacc h.2
    by_cases hf : lvl = FatalLevel
    · subst hf
      simp [hacc, h53, Should, CheckedEntry.Write, Logger.entry, Core.Write]
    · simp [hacc, hf, hp, Should, CheckedEntry.Write, Logger.entry, Core.Write]

end zap

/-! ## The facade -/

namespace zapper
open zapcore

theorem Method.level_ne_panic (m : Method) : m.level ≠ PanicLevel := by
  cases m <;> decide

theorem Logger.invoke_eq (F : fmt.Impl) (m : Method) (l : Logger) (log : zap.Logger)
    (h : l.zap = some log) (g : Goroutine) (msg : String) (fields : List Field)
    (values : List fmt.Value) :
    Logger.invoke F m (some l) g msg fields values
      = { written := (Tee.accepting log.core l.cell m.level).map fun c =>
            c.Write
              (log.entry (g.enter (pkgPath ++ m.name) "zapper.go" m.line) m.level
                (if m.formatted then F.Sprintf msg values else msg))
              (if m.formatted then [] else fields)
          status := if m.level = FatalLevel then .exited 1 else .returned } := by
  cases m <;>
    simp only [Logger.invoke, Logger.Debug, Logger.Info, Logger.Warn, Logger.Error, Logger.Fatal,
      Logger.Debugf, Logger.Infof, Logger.Warnf, Logger.Errorf, Logger.Fatalf,
      zap.Logger.Debug, zap.Logger.Info, zap.Logger.Warn, zap.Logger.Error, zap.Logger.Fatal, h,
      Method.level, Method.name, Method.line, Method.formatted] <;>
    rw [zap.Logger.leveled_eq _ _ _ _ _ _ _ (by decide)] <;> simp

theorem NewLogger_zap (config : Config) :
    (NewLogger config).zap = some
      { core :=
          (if config.EnableConsole then
            [{ enab := .console
               enc := if config.ConsoleFormat = "json" then jsonEncoder else planeTextEncoder
               out := .stdout }] else [])
          ++ (if config.EnableFile then
            [{ enab := .file
               enc := if config.FileFormat = "json" then jsonEncoder else planeTextEncoder
               out := config.fileWriter }] else [])
        name := "", addCaller := true, addStack := ErrorLevel, callerSkip := 2 } := by
  cases hc : config.EnableConsole <;> cases hf : config.EnableFile <;>
    simp [NewLogger, hc, hf, zap.New, zap.Option.apply, NewTee, NewCore, Config.fileWriter]

theorem zapLevel_eq_named (s : String) :
    zapLevel s
      = (if s = "debug" then DebugLevel else if s = "info" then InfoLevel
          else if s = "warn" then WarnLevel else if s = "error" then ErrorLevel
          else if s = "fatal" then FatalLevel else InfoLevel) := by
  unfold zapLevel levelInfo levelWarn levelDebug levelError levelFatal
  by_cases h1 : s = "info" <;> by_cases h2 : s = "warn" <;> by_cases h3 : s = "debug" <;>
    by_cases h4 : s = "error" <;> by_cases h5 : s = "fatal" <;> simp [h1, h2, h3, h4, h5]

/-- C1: a leveled call on the logger built from `config` writes exactly one
record to the console sink when the console is enabled and the severity of the
call (debug -1, info 0, warn 1, error 2, fatal 5, for the fields-based and the
formatted operation alike) is at least the severity that `ConsoleLevel` names
("debug", "info", "warn", "error", "fatal" name those five; any other string
stands for info), and none otherwise; likewise for the file sink with
`EnableFile` and `FileLevel`; every record written carries the severity and the
message of the call. A disabled sink therefore receives nothing at any severity. -/
theorem NewLogger_dispatch_gated (F : fmt.Impl) (config : Config) (m : Method) (g : Goroutine)
    (msg : String) (fields : List Field) (values : List fmt.Value) :
    m.level
      = (match m with
          | .Debug | .Debugf => (-1 : Int)
          | .Info | .Infof => 0
          | .Warn | .Warnf => 1
          | .Error | .Errorf => 2
          | .Fatal | .Fatalf => 5)
    ∧ (consoleRecords (Logger.invoke F m (some (NewLogger config)) g msg fields values)).length
      = (if config.EnableConsole = true
            ∧ (if config.ConsoleLevel = "debug" then (-1 : Int)
                else if config.ConsoleLevel = "info" then 0
                else if config.ConsoleLevel = "warn" then 1
                else if config.ConsoleLevel = "error" then 2
                else if config.ConsoleLevel = "fatal" then 5 else 0) ≤ m.level
          then 1 else 0)
    ∧ (fileRecords (Logger.invoke F m (some (NewLogger config)) g msg fields values)).length
      = (if config.EnableFile = true
            ∧ (if config.FileLevel = "debug" then (-1 : Int)
                else if config.FileLevel = "info" then 0
                else if config.FileLevel = "warn" then 1
                else if config.FileLevel = "error" then 2
                else if config.FileLevel = "fatal" then 5 else 0) ≤ m.level
          then 1 else 0)
    ∧ ∀ w ∈ (Logger.invoke F m (some (NewLogger config)) g msg fields values).written,
        w.ent.Level = m.level
          ∧ w.ent.Message = (if m.formatted then F.Sprintf msg values else msg) := by
  have hm : m.level
      = (match m with
          | .Debug | .Debugf => (-1 : Int)
          | .Info | .Infof => 0
          | .Warn | .Warnf => 1
          | .Error | .Errorf => 2
          | .Fatal | .Fatalf => 5) := by
    cases m <;> rfl
  refine ⟨hm, ?_⟩
  have hc := zapLevel_eq_named config.ConsoleLevel
  have hf := zapLevel_eq_named config.FileLevel
  simp only [DebugLevel, InfoLevel, WarnLevel, ErrorLevel, FatalLevel] at hc hf
  rw [← hc, ← hf]
  rw [Logger.invoke_eq F m _ _ (NewLogger_zap config)]
  have hcl : (NewLogger config).cell .console = zapLevel config.ConsoleLevel := rfl
  have hfl : (NewLogger config).cell .file = zapLevel config.FileLevel := rfl
  cases hc : config.EnableConsole <;> cases hf : config.EnableFile <;>
    by_cases h1 : zapLevel config.ConsoleLevel ≤ m.level <;>
    by_cases h2 : zapLevel config.FileLevel ≤ m.level <;>
    simp [consoleRecords, fileRecords, Tee.accepting, Core.Enabled, Level.Enabled, Core.Write,
      hcl, hfl, h1, h2, zap.Logger.entry, List.filter_cons, Config.fileWriter]

/-- C2: each of the ten leveled operations, invoked on a nil `*Logger` with any
message or format and any arguments, returns normally having written nothing:
no fault and no process exit, Fatal and Fatalf included. -/
theorem nil_receiver_noop (F : fmt.Impl) (m : Method) (g : Goroutine) (msg : String)
    (fields : List Field) (values : List fmt.Value) :
    Logger.invoke F m none g msg fields values = { written := [], status := .returned } := by
  cases m <;> rfl

/-- C3 (what the code does): before the first InitGlobalLogger the global
logger is nil and the ten methods called on it are no-ops, but each of the ten
package-level function variables is the nil function value, and calling it
faults with a nil dereference instead of returning. -/
theorem package_functions_fault_before_init (F : fmt.Impl) (m : Method) (g : Goroutine)
    (msg : String) (fields : List Field) (values : List fmt.Value) :
    GlobalLogger Globals.zero = none
    ∧ Logger.invoke F m (GlobalLogger Globals.zero) g msg fields values
        = { written := [], status := .returned }
    ∧ Globals.invoke Globals.zero m g msg fields values
        = { written := []
            status := .panicked "invalid memory address or nil pointer dereference" } := by
  refine ⟨rfl, ?_, ?_⟩ <;> cases m <;> rfl

/-- C4: for every console format string and every file format string NewLogger
builds its logger, and an enabled sink gets the structured (JSON) encoder of
zapcore exactly when its own format is "json" and the human-readable console
encoder for every other string ("text" and the empty string included), both
over the keys timestamp, level, logger, caller, msg and stacktrace; the two
encoders differ, and the encoder of one sink does not change when the format of
the other sink is changed. -/
theorem NewLogger_encoder_choice (config : Config) (other : String) :
    (NewLogger config).consoleEncoder
      = (if config.EnableConsole = true then
          some (if config.ConsoleFormat = "json" then Encoder.json newEncoderConfig
                else Encoder.console newEncoderConfig)
        else none)
    ∧ (NewLogger config).fileEncoder
      = (if config.EnableFile = true then
          some (if config.FileFormat = "json" then Encoder.json newEncoderConfig
                else Encoder.console newEncoderConfig)
        else none)
    ∧ jsonEncoder = Encoder.json newEncoderConfig
    ∧ planeTextEncoder = Encoder.console newEncoderConfig
    ∧ newEncoderConfig
      = { TimeKey := "timestamp", LevelKey := "level", NameKey := "logger"
          CallerKey := "caller", MessageKey := "msg", StacktraceKey := "stacktrace"
          LineEnding := "\n" }
    ∧ jsonEncoder ≠ planeTextEncoder
    ∧ ((NewLogger config).consoleEncoder = some (Encoder.json newEncoderConfig)
        ↔ (config.EnableConsole = true ∧ config.ConsoleFormat = "json"))
    ∧ ((NewLogger config).fileEncoder = some (Encoder.json newEncoderConfig)
        ↔ (config.EnableFile = true ∧ config.FileFormat = "json"))
    ∧ (NewLogger { config with FileFormat := other }).consoleEncoder
        = (NewLogger config).consoleEncoder
    ∧ (NewLogger { config with ConsoleFormat := other }).fileEncoder
        = (NewLogger config).fileEncoder := by
  have key : ∀ c : Config,
      (NewLogger c).consoleEncoder
        = (if c.EnableConsole = true then
            some (if c.ConsoleFormat = "json" then Encoder.json newEncoderConfig
                  else Encoder.console newEncoderConfig)
          else none)
      ∧ (NewLogger c).fileEncoder
        = (if c.EnableFile = true then
            some (if c.FileFormat = "json" then Encoder.json newEncoderConfig
                  else Encoder.console newEncoderConfig)
          else none) := by
    intro c
    simp only [Logger.consoleEncoder, Logger.fileEncoder, NewLogger_zap]
    cases hc : c.EnableConsole <;> cases hf : c.EnableFile <;>
      simp [Config.fileWriter, List.find?_cons, jsonEncoder, planeTextEncoder, NewJSONEncoder,
        NewConsoleEncoder, encoderConfig]
  refine ⟨(key config).1, (key config).2, rfl, rfl, rfl, ?_, ?_, ?_, ?_, ?_⟩
  · simp [jsonEncoder, planeTextEncoder, NewJSONEncoder, NewConsoleEncoder]
  · rw [(key config).1]
    cases hc : config.EnableConsole <;> by_cases hj : config.ConsoleFormat = "json" <;>
      simp [hj]
  · rw [(key config).2]
    cases hf : config.EnableFile <;> by_cases hj : config.FileFormat = "json" <;>
      simp [hj]
  · rw [(key _).1, (key config).1]
  · rw [(key _).2, (key config).2]

/-- C5: on every logger built by NewLogger, whatever its two gates hold
afterwards, and on the zero-value logger, the formatted operation of each
severity gives exactly the outcome (records and ending) of the fields-based
operation of that severity called, from the same call site, with the rendered
message and no fields. In the scenario of a console sink
gated at warn, Warnf of "disk at %d%%" with 90 writes one warn record with the
message "disk at 90%" and Infof writes none. -/
theorem formatted_refines_plain (F : fmt.Impl) (config : Config) (m : Method) (g : Goroutine)
    (format : String) (args : List fmt.Value) (cl fl : Level) :
    Logger.invoke F m.withFormat (some (NewLogger config)) g format [] args
      = Logger.invoke F m.plain (some (NewLogger config)) g (F.Sprintf format args) [] []
    ∧ Logger.invoke F m.withFormat (some ((NewLogger config).withLevels cl fl)) g format [] args
      = Logger.invoke F m.plain (some ((NewLogger config).withLevels cl fl)) g
          (F.Sprintf format args) [] []
    ∧ Logger.invoke F m.withFormat (some (Logger.zeroValue cl fl)) g format [] args
      = Logger.invoke F m.plain (some (Logger.zeroValue cl fl)) g (F.Sprintf format args) [] []
    ∧ (Logger.Warnf fmt.std (some (NewLogger (consoleOnly "warn" "text"))) handlerCall
          "disk at %d%%" [fmt.Value.int 90]).written.map
        (fun w => (w.out, w.enc, w.ent.Level, w.ent.Message))
        = [(WriteSyncer.stdout, planeTextEncoder, WarnLevel, "disk at 90%")]
    ∧ (Logger.Infof fmt.std (some (NewLogger (consoleOnly "warn" "text"))) handlerCall
          "disk at %d%%" [fmt.Value.int 90]).written = [] := by
  have key : ∀ l : Logger, l.zap = (NewLogger config).zap →
      Logger.invoke F m.withFormat (some l) g format [] args
        = Logger.invoke F m.plain (some l) g (F.Sprintf format args) [] [] := by
    intro l hl
    rw [Logger.invoke_eq F _ _ _ (hl.trans (NewLogger_zap config)),
      Logger.invoke_eq F _ _ _ (hl.trans (NewLogger_zap config))]
    cases m <;> simp [Method.withFormat, Method.plain, Method.level, Method.formatted,
      zap.Logger.entry, Goroutine.enter]
  refine ⟨key _ rfl, key _ rfl, ?_, ?_, ?_⟩
  · cases m <;> rfl
  · decide
  · decide

theorem InitGlobalLoggers_snoc (F : fmt.Impl) (p : Globals) (configs : List Config)
    (config : Config) :
    InitGlobalLoggers F (configs ++ [config]) p
      = InitGlobalLogger F config (InitGlobalLoggers F configs p) := by
  simp [InitGlobalLoggers, List.foldl_append]

/-- C6: after any sequence of InitGlobalLogger calls ending with `config`,
from any earlier state, GlobalLogger returns the logger built from `config`, the
ten function variables hold the method values of that logger, a call through
any of them is the call of the method on that logger, and every record it
writes goes to a sink that `config` enables. -/
theorem InitGlobalLogger_last_wins (F : fmt.Impl) (p : Globals) (configs : List Config)
    (config : Config) (m : Method) (g : Goroutine) (msg : String) (fields : List Field)
    (values : List fmt.Value) :
    GlobalLogger (InitGlobalLoggers F (configs ++ [config]) p) = some (NewLogger config)
    ∧ Globals.boundTo F (InitGlobalLoggers F (configs ++ [config]) p) (some (NewLogger config))
    ∧ Globals.invoke (InitGlobalLoggers F (configs ++ [config]) p) m g msg fields values
        = Logger.invoke F m (some (NewLogger config)) g msg fields values
    ∧ ∀ w ∈ (Globals.invoke (InitGlobalLoggers F (configs ++ [config]) p) m g msg fields
          values).written,
        (w.out = WriteSyncer.stdout ∧ config.EnableConsole = true)
          ∨ (w.out = config.fileWriter ∧ config.EnableFile = true) := by
  have hinv : Globals.invoke (InitGlobalLoggers F (configs ++ [config]) p) m g msg fields values
      = Logger.invoke F m (some (NewLogger config)) g msg fields values := by
    rw [InitGlobalLoggers_snoc]
    cases m <;> rfl
  refine ⟨?_, ?_, hinv, ?_⟩
  · rw [InitGlobalLoggers_snoc]; rfl
  · rw [InitGlobalLoggers_snoc]
    exact ⟨rfl, rfl, rfl, rfl, rfl, rfl, rfl, rfl, rfl, rfl⟩
  · rw [hinv, Logger.invoke_eq F m _ _ (NewLogger_zap config)]
    intro w hw
    simp only [List.mem_map, Tee.accepting, List.mem_filter] at hw
    obtain ⟨c, ⟨hc, -⟩, rfl⟩ := hw
    show (c.out = WriteSyncer.stdout ∧ config.EnableConsole = true)
      ∨ (c.out = config.fileWriter ∧ config.EnableFile = true)
    cases h1 : config.EnableConsole <;> cases h2 : config.EnableFile <;>
      simp only [h1, h2, if_true, if_false, List.append_nil, List.nil_append,
        List.singleton_append, List.mem_cons, List.mem_singleton, List.not_mem_nil,
        or_false, Bool.false_eq_true] at hc
    · subst hc; simp
    · subst hc; simp
    · rcases hc with rfl | rfl <;> simp

/-- On every logger built by NewLogger, the caller attached to a record of a
direct call is the frame one above the frame that makes the call. -/
theorem caller_is_above_call_site (F : fmt.Impl) (config : Config) (m : Method)
    (g : Goroutine) (msg : String) (fields : List Field) (values : List fmt.Value) :
    ∀ w ∈ (Logger.invoke F m (some (NewLogger config)) g msg fields values).written,
      w.ent.Caller = zap.entryCaller (g.stack.drop 1) := by
  rw [Logger.invoke_eq F m _ _ (NewLogger_zap config)]
  simp [Core.Write, zap.Logger.entry, Goroutine.enter]

/-- C7 (what the code does): `main.main` (main.go:30) calls `main.handler`,
which calls Info at main.go:12 directly on a logger built by NewLogger; the one
record written names main.go:30 in `main.main` as its caller, not the call site
main.go:12 in `main.handler`: the skip of 2 passes over the method of the facade
and the user frame that made the call. -/
theorem direct_call_skips_user_frame :
    (Logger.Info (some (NewLogger (consoleOnly "debug" "text"))) handlerCall "hello"
        []).written.map (fun w => w.ent.Caller)
      = [{ Defined := true, File := "main.go", Line := 30, Function := "main.main" }]
    ∧ zap.entryCaller handlerCall.stack
      = { Defined := true, File := "main.go", Line := 12, Function := "main.handler" } := by
  decide

end zapper

/-! ## The grpc shim -/

namespace grpc

/-- The Printf-style operations Infof, Errorf and Fatalf of a shim that is
neither nil nor noop forward the rendering of the format to the method of
their severity of the global logger of the facade; on a nil or noop shim all
four Printf-style operations forward nothing. -/
theorem printf_siblings_forward (F : fmt.Impl) (z : zapper.Globals) (v : Int) (g : Goroutine)
    (format : String) (args : List fmt.Value) :
    Logger.Infof F z (some { noop := false, v := v }) g format args
      = zapper.Logger.Info (zapper.GlobalLogger z)
          (g.enter (pkgPath ++ "Infof") "grpc_logger.go" 67) (F.Sprintf format args) []
    ∧ Logger.Errorf F z (some { noop := false, v := v }) g format args
      = zapper.Logger.Error (zapper.GlobalLogger z)
          (g.enter (pkgPath ++ "Errorf") "grpc_logger.go" 121) (F.Sprintf format args) []
    ∧ Logger.Fatalf F z (some { noop := false, v := v }) g format args
      = zapper.Logger.Fatal (zapper.GlobalLogger z)
          (g.enter (pkgPath ++ "Fatalf") "grpc_logger.go" 154) (F.Sprintf format args) []
    ∧ Logger.Infof F z none g format args = Outcome.noop
    ∧ Logger.Warningf F z none g format args = Outcome.noop
    ∧ Logger.Errorf F z none g format args = Outcome.noop
    ∧ Logger.Fatalf F z none g format args = Outcome.noop
    ∧ Logger.Infof F z (some { noop := true, v := v }) g format args = Outcome.noop
    ∧ Logger.Warningf F z (some { noop := true, v := v }) g format args = Outcome.noop
    ∧ Logger.Errorf F z (some { noop := true, v := v }) g format args = Outcome.noop
    ∧ Logger.Fatalf F z (some { noop := true, v := v }) g format args = Outcome.noop :=
  ⟨rfl, rfl, rfl, rfl, rfl, rfl, rfl, rfl, rfl, rfl, rfl⟩

/-- Warningf of a shim that is neither nil nor noop forwards `Sprint` of the
operands, whatever the format is. -/
theorem Warningf_forwards_Sprint (F : fmt.Impl) (z : zapper.Globals) (v : Int) (g : Goroutine)
    (format : String) (args : List fmt.Value) :
    Logger.Warningf F z (some { noop := false, v := v }) g format args
      = zapper.Logger.Warn (zapper.GlobalLogger z)
          (g.enter (pkgPath ++ "Warningf") "grpc_logger.go" 94) (F.Sprint args) [] :=
  rfl

/-- C8 (what the code does): with the global logger writing debug and above to
the console, Warningf of "disk at %d%%" with 90 on a shim with noop = false
forwards one warn record whose message is "90", while the rendering of the
format in the manner of Printf is "disk at 90%"; Infof forwards that rendering. -/
theorem Warningf_drops_format :
    (Logger.Warningf fmt.std
        (zapper.InitGlobalLogger fmt.std (zapper.consoleOnly "debug" "text") zapper.Globals.zero)
        (some { noop := false, v := 0 }) zapper.handlerCall "disk at %d%%"
        [fmt.Value.int 90]).written.map (fun w => (w.ent.Level, w.ent.Message))
      = [(zapcore.WarnLevel, "90")]
    ∧ fmt.std.Sprintf "disk at %d%%" [fmt.Value.int 90] = "disk at 90%"
    ∧ (Logger.Infof fmt.std
        (zapper.InitGlobalLogger fmt.std (zapper.consoleOnly "debug" "text") zapper.Globals.zero)
        (some { noop := false, v := 0 }) zapper.handlerCall "disk at %d%%"
        [fmt.Value.int 90]).written.map (fun w => (w.ent.Level, w.ent.Message))
      = [(zapcore.InfoLevel, "disk at 90%")] := by
  decide

/-- C9: after InitGlobalLogger of the shim, from any earlier state, the global
shim logger exists with the configured noop flag; when the environment sets
GRPC_GO_LOG_VERBOSITY_LEVEL to `e` its verbosity is the integer Atoi reads from
`e`, or 0 when Atoi fails on `e` (set to "2" it is 2, set to "-1" it is -1, set
to "verbose" or to the empty string it is 0); when the variable is absent it
is 0; and V(v) on that logger is true exactly when v is at most that verbosity. -/
theorem InitGlobalLogger_verbosity (env : os.Environ) (config : Config) (p : Globals)
    (v : Int) (e : String) :
    GlobalLogger (InitGlobalLogger env config p)
      = some { noop := config.Noop
               v := (strconv.Atoi (os.Getenv env "GRPC_GO_LOG_VERBOSITY_LEVEL")).getD 0 }
    ∧ (env "GRPC_GO_LOG_VERBOSITY_LEVEL" = none →
        GlobalLogger (InitGlobalLogger env config p) = some { noop := config.Noop, v := 0 })
    ∧ (env "GRPC_GO_LOG_VERBOSITY_LEVEL" = some e →
        GlobalLogger (InitGlobalLogger env config p)
          = some { noop := config.Noop, v := (strconv.Atoi e).getD 0 })
    ∧ (env "GRPC_GO_LOG_VERBOSITY_LEVEL" = some e →
        Logger.V (GlobalLogger (InitGlobalLogger env config p)) v
          = some (decide (v ≤ (strconv.Atoi e).getD 0)))
    ∧ (env "GRPC_GO_LOG_VERBOSITY_LEVEL" = none →
        Logger.V (GlobalLogger (InitGlobalLogger env config p)) v = some (decide (v ≤ 0)))
    ∧ GlobalLogger (InitGlobalLogger
          (fun k => if k = "GRPC_GO_LOG_VERBOSITY_LEVEL" then some "2" else none) config p)
        = some { noop := config.Noop, v := 2 }
    ∧ GlobalLogger (InitGlobalLogger
          (fun k => if k = "GRPC_GO_LOG_VERBOSITY_LEVEL" then some "-1" else none) config p)
        = some { noop := config.Noop, v := -1 }
    ∧ GlobalLogger (InitGlobalLogger
          (fun k => if k = "GRPC_GO_LOG_VERBOSITY_LEVEL" then some "verbose" else none) config p)
        = some { noop := config.Noop, v := 0 }
    ∧ GlobalLogger (InitGlobalLogger
          (fun k => if k = "GRPC_GO_LOG_VERBOSITY_LEVEL" then some "" else none) config p)
        = some { noop := config.Noop, v := 0 }
    ∧ GlobalLogger (InitGlobalLogger (fun _ => none) config p)
        = some { noop := config.Noop, v := 0 }
    ∧ Logger.V (GlobalLogger (InitGlobalLogger env config p)) v
      = some (decide (v ≤ (strconv.Atoi (os.Getenv env "GRPC_GO_LOG_VERBOSITY_LEVEL")).getD 0))
    ∧ strconv.Atoi "" = none ∧ strconv.Atoi "verbose" = none ∧ strconv.Atoi "1.5" = none
    ∧ strconv.Atoi "2" = some 2 ∧ strconv.Atoi "-1" = some (-1)
    ∧ strconv.Atoi "+99" = some 99 := by
  have h1 : ∀ env : os.Environ, GlobalLogger (InitGlobalLogger env config p)
      = some { noop := config.Noop
               v := (strconv.Atoi (os.Getenv env "GRPC_GO_LOG_VERBOSITY_LEVEL")).getD 0 } := by
    intro env
    simp only [InitGlobalLogger, GlobalLogger]
    cases h : strconv.Atoi (os.Getenv env "GRPC_GO_LOG_VERBOSITY_LEVEL") <;> simp
  have hempty : strconv.Atoi "" = none := by decide
  have habsent : env "GRPC_GO_LOG_VERBOSITY_LEVEL" = none →
      strconv.Atoi (os.Getenv env "GRPC_GO_LOG_VERBOSITY_LEVEL") = none := by
    intro habs
    simp only [os.Getenv, habs, Option.getD_none]
    exact hempty
  have hset : env "GRPC_GO_LOG_VERBOSITY_LEVEL" = some e →
      os.Getenv env "GRPC_GO_LOG_VERBOSITY_LEVEL" = e := by
    intro hs
    simp only [os.Getenv, hs, Option.getD_some]
  refine ⟨h1 env, ?_, ?_, ?_, ?_, ?_, ?_, ?_, ?_, ?_, ?_,
    by decide, by decide, by decide, by decide, by decide, by decide⟩
  · intro habs
    rw [h1, habsent habs]; rfl
  · intro hs
    rw [h1, hset hs]
  · intro hs
    rw [h1, hset hs]; rfl
  · intro habs
    rw [h1, habsent habs]; rfl
  · rw [h1]
    have : strconv.Atoi (os.Getenv
        (fun k => if k = "GRPC_GO_LOG_VERBOSITY_LEVEL" then some "2" else none)
        "GRPC_GO_LOG_VERBOSITY_LEVEL") = some 2 := by decide
    rw [this]; rfl
  · rw [h1]
    have : strconv.Atoi (os.Getenv
        (fun k => if k = "GRPC_GO_LOG_VERBOSITY_LEVEL" then some "-1" else none)
        "GRPC_GO_LOG_VERBOSITY_LEVEL") = some (-1) := by decide
    rw [this]; rfl
  · rw [h1]
    have : strconv.Atoi (os.Getenv
        (fun k => if k = "GRPC_GO_LOG_VERBOSITY_LEVEL" then some "verbose" else none)
        "GRPC_GO_LOG_VERBOSITY_LEVEL") = none := by decide
    rw [this]; rfl
  · rw [h1]
    have : strconv.Atoi (os.Getenv
        (fun k => if k = "GRPC_GO_LOG_VERBOSITY_LEVEL" then some "" else none)
        "GRPC_GO_LOG_VERBOSITY_LEVEL") = none := by decide
    rw [this]; rfl
  · rw [h1]
    have : strconv.Atoi (os.Getenv (fun _ => none) "GRPC_GO_LOG_VERBOSITY_LEVEL") = none := by
      decide
    rw [this]; rfl
  · rw [h1]; rfl

end grpc
